import Mathlib

set_option autoImplicit false

/-!
Shallow embedding of `src/hyperschema/hypermedia.py` (flask-hyperschema).

Modelling conventions:
* Python strings are Lean `String`; `None` becomes `Option.none`.
* The schema directory is a pure map `fs : String → Option String` sending a
  schema name to the text of `<schema_path>/<name>.json` when that file exists.
* `json.loads` is an abstract parameter `parse : String → Option J`; `none`
  models a raised `json.JSONDecodeError`.
* Raised Python exceptions become `Except` errors; an uncaught exception in a
  Flask view yields an HTTP 500 response.
-/

/-- Exceptions that the inner `load_schema` function can raise:
`FileNotFoundError` from `open`, `json.JSONDecodeError` from `json.loads`,
and `TypeError` from `str.replace` when the replacement argument is `None`. -/
inductive LoadErr where
  | fileNotFound
  | jsonDecodeError
  | typeError
  deriving DecidableEq, Repr

/-- The literal placeholder token substituted by `load_schema`. -/
def baseUrlToken : String := "${base_url}"

/-- Python `str.replace` over character lists: scans left to right and
replaces each non-overlapping occurrence of `pat` by `rep`.  The `pat = []`
case never arises here (the only call site uses the fixed non-empty token
`${base_url}`). -/
def replaceAll (pat rep : List Char) : List Char → List Char
  | [] => []
  | c :: cs =>
    if pat.isPrefixOf (c :: cs) ∧ pat ≠ [] then
      rep ++ replaceAll pat rep ((c :: cs).drop pat.length)
    else
      c :: replaceAll pat rep cs
termination_by s => s.length
decreasing_by
  · simp only [List.length_drop, List.length_cons]
    have hp : 1 ≤ pat.length := by
      rcases pat with _ | ⟨p, ps⟩
      · simp_all
      · simp
    omega
  · simp

/-- Python `text.replace(pat, rep)` on `String`. -/
def pyReplace (text pat rep : String) : String :=
  ⟨replaceAll pat.data rep.data text.data⟩

/-- Python truthiness fallback `a or b` for an optional string `a`:
`None` and the empty string are falsy. -/
def pyOrStr (a : Option String) (b : String) : String :=
  match a with
  | some s => if s = "" then b else s
  | none => b

/-- The expression `base_url or self.base_url` inside `load_schema`:
the replacement string handed to `str.replace`, still optional because
`self.base_url` may itself be `None`. -/
def effectiveBaseUrl (baseUrl instanceBase : Option String) : Option String :=
  match baseUrl with
  | some b => if b = "" then instanceBase else some b
  | none => instanceBase

/-- Embedding of the inner `load_schema(base_url, schema_name)` built by
`HyperMedia._load_schema` (caching aside, which is modelled separately):
opens `<schema_path>/<schema_name>.json` (raising `FileNotFoundError` when
absent), replaces every occurrence of `${base_url}` by
`base_url or self.base_url` (raising `TypeError` when that expression is
`None`), and parses the result with `json.loads`. -/
def load_schema {J : Type} (parse : String → Option J) (fs : String → Option String)
    (instanceBase : Option String) (baseUrl : Option String) (schemaName : String) :
    Except LoadErr J :=
  match fs schemaName with
  | none => Except.error LoadErr.fileNotFound
  | some text =>
    match effectiveBaseUrl baseUrl instanceBase with
    | none => Except.error LoadErr.typeError
    | some b =>
      match parse (pyReplace text baseUrlToken b) with
      | none => Except.error LoadErr.jsonDecodeError
      | some j => Except.ok j

/-- Embedding of `SchemaApi.get` for a request with a `schema_id`:
calls `load_schema(request.url_root[:-1], schema_id)` (the `urlRoot`
parameter is the already-truncated origin), returns 404 when the loaded
schema is falsy, 200 with the schema otherwise; any exception raised by
`load_schema` escapes the view and Flask answers 500.  The result is the
HTTP status paired with the returned document, if any.  `falsy` models
Python truthiness of the parsed JSON value. -/
def schemaApiGet {J : Type} (parse : String → Option J) (falsy : J → Bool)
    (fs : String → Option String) (instanceBase : Option String)
    (urlRoot : String) (schemaId : String) : Nat × Option J :=
  match load_schema parse fs instanceBase (some urlRoot) schemaId with
  | Except.error _ => (500, none)
  | Except.ok j => if falsy j then (404, none) else (200, some j)

/-- The schema cache default capacity, from the environment default in
`SCHEMA_CACHE_MAX_SIZE = int(os.getenv(..., '50'))`. -/
def SCHEMA_CACHE_MAX_SIZE : Nat := 50

/-- State of the `repoze.lru` cache wrapped around `load_schema`, modelled as
a canonical LRU: an association list ordered most-recently-used first, keyed
by the call arguments `(base_url, schema_name)`, bounded by `maxSize`. -/
structure SchemaCache (J : Type) where
  maxSize : Nat
  entries : List ((Option String × String) × J)

/-- Cache lookup by key. -/
def cacheGet {J : Type} (c : SchemaCache J) (k : Option String × String) : Option J :=
  (c.entries.find? (fun e => e.1 == k)).map Prod.snd

/-- Insert (or refresh) a key at the most-recently-used position, evicting
from the least-recently-used end beyond capacity. -/
def cachePut {J : Type} (c : SchemaCache J) (k : Option String × String) (v : J) :
    SchemaCache J :=
  ⟨c.maxSize, ((k, v) :: c.entries.filter (fun e => !(e.1 == k))).take c.maxSize⟩

/-- Embedding of the decorated `self.load_schema`: the `lru_cache`-wrapped
`load_schema`.  On a cache hit the value is returned without touching the
file system; on a miss the underlying `load_schema` runs (one file-system
access) and a successful result is cached.  The last component counts the
file-system accesses made by the call. -/
def cachedLoadSchema {J : Type} (parse : String → Option J) (fs : String → Option String)
    (instanceBase : Option String) (st : SchemaCache J)
    (baseUrl : Option String) (schemaName : String) :
    Except LoadErr J × SchemaCache J × Nat :=
  let k := (baseUrl, schemaName)
  match cacheGet st k with
  | some v => (Except.ok v, cachePut st k v, 0)
  | none =>
    match load_schema parse fs instanceBase baseUrl schemaName with
    | Except.ok v => (Except.ok v, cachePut st k v, 1)
    | Except.error e => (Except.error e, st, 1)

/-- Failures of the `produces` wrapper: `NotAcceptable` (HTTP 406) raised by
strict negotiation, and the uncaught `KeyError` raised by
`type_mappings[mimetype]` when the selected mimetype is not a key. -/
inductive ProducesErr where
  | notAcceptable
  | keyError
  deriving DecidableEq, Repr

/-- Embedding of `OrderedSet(...)` applied to a list: deduplicate keeping the
first occurrence of each element, preserving order. -/
def pyOrderedSet : List String → List String
  | [] => []
  | x :: xs => x :: pyOrderedSet (xs.filter (fun y => y != x))
termination_by l => l.length
decreasing_by
  have := List.length_filter_le (fun y => y != x) xs
  simp only [List.length_cons]
  omega

/-- The mimetype-selection part of the `produces` wrapper:
`requested = OrderedSet(accept values)`, `supported = requested & defined`
(an intersection keeping the order of `requested`), then the branch choosing
`default`, raising `NotAcceptable`, or taking the first supported type. -/
def negotiate (accepted : List String) (mappings : List (String × String))
    (dflt : String) (strict : Bool) : Except ProducesErr String :=
  let requested := pyOrderedSet accepted
  let supported := requested.filter (fun t => (mappings.lookup t).isSome)
  if requested = [] ∨ requested.head? = some "*/*" then
    Except.ok dflt
  else if supported = [] then
    if strict then Except.error ProducesErr.notAcceptable else Except.ok dflt
  else
    Except.ok (supported.headD dflt)

/-- Embedding of the full `produces` wrapper outcome: after negotiation the
code evaluates `hyperschema = type_mappings[mimetype]` — an uncaught
`KeyError` when the selected mimetype is not a key of the mapping — and
attaches a describedBy Link header when `hyperschema` is truthy.  The result
carries the selected mimetype and the schema name placed in the Link header,
if any. -/
def producesWrapper (accepted : List String) (mappings : List (String × String))
    (dflt : String) (strict : Bool) : Except ProducesErr (String × Option String) :=
  match negotiate accepted mappings dflt strict with
  | Except.error e => Except.error e
  | Except.ok mimetype =>
    match mappings.lookup mimetype with
    | none => Except.error ProducesErr.keyError
    | some hyperschema =>
      Except.ok (mimetype, if hyperschema = "" then none else some hyperschema)

/-- The form media type special-cased by `consumes`. -/
def MIME_FORM_URLENCODED : String := "application/x-www-form-urlencoded"

/-- Python `str.lower` (over the characters of the string). -/
def pyLower (s : String) : String :=
  ⟨s.data.map Char.toLower⟩

/-- Failures of the `consumes` wrapper: `UnsupportedMediaType` (HTTP 415),
the `BadRequestKeyError` raised by `request.form['payload']` when the field
is missing, `json.JSONDecodeError` from decoding, `jsonschema.ValidationError`
from validation, and any exception escaping `load_schema`. -/
inductive ConsumeErr where
  | unsupportedMediaType
  | badRequestKeyError
  | parseError
  | validationError
  | load (e : LoadErr)
  deriving DecidableEq, Repr

/-- The parts of a Flask request read by the `consumes` wrapper.  `urlRoot`
stands for `request.url_root[:-1]` (origin, trailing slash dropped);
`bodyData` is `request.data.decode('utf-8')`. -/
structure PyRequest where
  mimetype : String
  form : List (String × String)
  bodyData : String
  urlRoot : String

/-- The payload-decoding block of the `consumes` wrapper: JSON comes from the
form field `payload` when the lowered mimetype is the URL-encoded form type
(`request.form['payload']` raising `BadRequestKeyError` when the field is
missing), from the raw request body otherwise. -/
def decodePayload {J : Type} (parse : String → Option J) (req : PyRequest) :
    Except ConsumeErr J :=
  if pyLower req.mimetype = MIME_FORM_URLENCODED then
    match req.form.lookup "payload" with
    | none => Except.error ConsumeErr.badRequestKeyError
    | some p =>
      match parse p with
      | none => Except.error ConsumeErr.parseError
      | some d => Except.ok d
  else
    match parse req.bodyData with
    | none => Except.error ConsumeErr.parseError
    | some d => Except.ok d

/-- Embedding of the `consumes` wrapper: reject mimetypes outside
`type_mappings` with `UnsupportedMediaType`; decode the JSON payload; when
the mapped schema name is truthy, load the schema (with
`self.base_url or request.url_root[:-1]` as base URL) and validate the
decoded data against it; finally hand `(request.mimetype, data)` to the
wrapped handler.  `validateOk` models `jsonschema.validate` succeeding. -/
def consumesWrapper {J : Type} (parse : String → Option J) (validateOk : J → J → Bool)
    (fs : String → Option String) (instanceBase : Option String)
    (mappings : List (String × String)) (req : PyRequest) :
    Except ConsumeErr (String × J) :=
  match mappings.lookup req.mimetype with
  | none => Except.error ConsumeErr.unsupportedMediaType
  | some schemaName =>
    match decodePayload parse req with
    | Except.error e => Except.error e
    | Except.ok data =>
      if schemaName = "" then Except.ok (req.mimetype, data)
      else
        match load_schema parse fs instanceBase
            (some (pyOrStr instanceBase req.urlRoot)) schemaName with
        | Except.error e => Except.error (ConsumeErr.load e)
        | Except.ok schema =>
          if validateOk data schema then Except.ok (req.mimetype, data)
          else Except.error ConsumeErr.validationError

/-- JSON values appearing in the error response body built by
`HyperMedia._as_flask_error`; `jval` wraps an embedded schema document. -/
inductive JVal (J : Type) where
  | s : String → JVal J
  | num : Nat → JVal J
  | null : JVal J
  | jval : J → JVal J
  | obj : List (String × JVal J) → JVal J

/-- The attributes of `jsonschema.ValidationError` and `jsonschema.SchemaError`
read by the error handlers: `message`, `schema` and `schema_path` (modelled as
the list of path segments joined by the handler). -/
structure SchemaExcInfo (J : Type) where
  message : String
  schema : J
  schemaPath : List String

/-- Python `'/'.join(parts)`. -/
def joinSlash : List String → String
  | [] => ""
  | [x] => x
  | x :: xs => x ++ "/" ++ joinSlash xs

/-- Embedding of `HyperMedia._get_error_details`. -/
def getErrorDetails {J : Type} (e : SchemaExcInfo J) : List (String × JVal J) :=
  [("schema", JVal.jval e.schema), ("schema-path", JVal.s (joinSlash e.schemaPath))]

/-- The request attributes serialized by `_as_flask_error`. -/
structure ReqCtx where
  path : String
  url : String
  method : String

/-- Embedding of `HyperMedia._as_flask_error`: the jsonified body (an ordered
object, keys as written in the source) paired with the HTTP status.  `errStr`
models `str(error)`, the fallback when `message` is falsy. -/
def asFlaskError {J : Type} (ctx : ReqCtx) (errStr : String) (message : String)
    (details : Option (List (String × JVal J))) (tb : Option String)
    (status : Nat) (code : String) : List (String × JVal J) × Nat :=
  ([("path", JVal.s ctx.path),
    ("url", JVal.s ctx.url),
    ("method", JVal.s ctx.method),
    ("message", JVal.s (pyOrStr (some message) errStr)),
    ("details", match details with | none => JVal.null | some d => JVal.obj d),
    ("traceback", match tb with | none => JVal.null | some t => JVal.s t),
    ("status", JVal.num status),
    ("code", JVal.s code)], status)

/-- Embedding of the `ValidationError` handler registered by
`register_error_handlers`. -/
def validationErrorHandler {J : Type} (ctx : ReqCtx) (errStr : String)
    (e : SchemaExcInfo J) : List (String × JVal J) × Nat :=
  asFlaskError ctx errStr e.message (some (getErrorDetails e)) none 400 "VALIDATION"

/-- Embedding of the `SchemaError` handler registered by
`register_error_handlers`; `tb` models `traceback.format_exc()`. -/
def schemaErrorHandler {J : Type} (ctx : ReqCtx) (errStr : String) (tb : String)
    (e : SchemaExcInfo J) : List (String × JVal J) × Nat :=
  asFlaskError ctx errStr e.message (some (getErrorDetails e)) (some tb) 500 "SCHEMA_ERROR"

theorem pyOrderedSet_eq_nil_iff (l : List String) : pyOrderedSet l = [] ↔ l = [] := by
  cases l <;> simp [pyOrderedSet]

theorem head?_pyOrderedSet (l : List String) : (pyOrderedSet l).head? = l.head? := by
  cases l <;> simp [pyOrderedSet]

theorem mem_pyOrderedSet (a : String) (l : List String) : a ∈ pyOrderedSet l ↔ a ∈ l := by
  induction l using pyOrderedSet.induct with
  | case1 => simp [pyOrderedSet]
  | case2 x xs ih =>
    rw [pyOrderedSet]
    simp only [List.mem_cons, ih, List.mem_filter, bne_iff_ne, ne_eq]
    by_cases hax : a = x
    · simp [hax]
    · simp [hax]

theorem find?_filter_bne (p : String → Bool) (x : String) (hx : p x = false)
    (l : List String) : (l.filter (fun y => y != x)).find? p = l.find? p := by
  induction l with
  | nil => simp
  | cons y ys ih =>
    by_cases hyx : y = x
    · subst hyx
      simp only [List.filter_cons, bne_self_eq_false, Bool.false_eq_true, if_false, ih]
      rw [List.find?_cons_of_neg _ (by simp [hx])]
    · have hkeep : (y != x) = true := by simp [bne_iff_ne, hyx]
      simp only [List.filter_cons, hkeep, if_true]
      cases hpy : p y
      · rw [List.find?_cons_of_neg _ (by simp [hpy]),
          List.find?_cons_of_neg _ (by simp [hpy]), ih]
      · rw [List.find?_cons_of_pos _ hpy, List.find?_cons_of_pos _ hpy]

theorem find?_pyOrderedSet (p : String → Bool) (l : List String) :
    (pyOrderedSet l).find? p = l.find? p := by
  induction l using pyOrderedSet.induct with
  | case1 => simp [pyOrderedSet]
  | case2 x xs ih =>
    rw [pyOrderedSet]
    cases hpx : p x
    · rw [List.find?_cons_of_neg _ (by simp [hpx]),
        List.find?_cons_of_neg _ (by simp [hpx]), ih, find?_filter_bne p x hpx]
    · rw [List.find?_cons_of_pos _ hpx, List.find?_cons_of_pos _ hpx]

/-- C2 counterexample: with an empty accept list and a default media type
absent from the offered mapping, negotiation does select the default, but the
wrapper then evaluates `type_mappings[mimetype]` and dies with an uncaught
`KeyError` instead of succeeding without a schema link. -/
theorem produces_absent_default_keyerror :
    negotiate [] [("application/vnd.test+json", "schema-test")] "application/json" false
      = Except.ok "application/json" ∧
    producesWrapper [] [("application/vnd.test+json", "schema-test")] "application/json" false
      = Except.error ProducesErr.keyError := by
  constructor
  · simp [negotiate, pyOrderedSet]
  · simp [producesWrapper, negotiate, pyOrderedSet, List.lookup]

/-- C2 (amended): when the accept list is empty or its first element is the
wildcard, negotiation selects `defaultMediaType`; the wrapper then succeeds
(annotating with a schema link exactly when the offered mapping carries a
truthy schema name for the default) only if the default is a key of the
offered mapping, and raises an uncaught `KeyError` otherwise. -/
theorem produces_default_branch (accepted : List String)
    (mappings : List (String × String)) (dflt : String) (strict : Bool)
    (h : accepted = [] ∨ accepted.head? = some "*/*") :
    negotiate accepted mappings dflt strict = Except.ok dflt ∧
    producesWrapper accepted mappings dflt strict =
      (match mappings.lookup dflt with
       | none => Except.error ProducesErr.keyError
       | some hs => Except.ok (dflt, if hs = "" then none else some hs)) := by
  have hneg : negotiate accepted mappings dflt strict = Except.ok dflt := by
    simp only [negotiate]
    rw [if_pos]
    rcases h with h | h
    · exact Or.inl ((pyOrderedSet_eq_nil_iff accepted).mpr h)
    · exact Or.inr (by rw [head?_pyOrderedSet]; exact h)
  exact ⟨hneg, by simp only [producesWrapper, hneg]⟩

/-- Witness for the amended C2 theorem at a concrete wildcard request. -/
theorem produces_default_branch_witness :
    negotiate ["*/*"] [("application/json", "schema-test")] "application/json" false
      = Except.ok "application/json" ∧
    producesWrapper ["*/*"] [("application/json", "schema-test")] "application/json" false
      = Except.ok ("application/json", some "schema-test") := by
  have h := produces_default_branch ["*/*"] [("application/json", "schema-test")]
    "application/json" false (Or.inr rfl)
  refine ⟨h.1, ?_⟩
  rw [h.2]
  simp [List.lookup]

/-- C3: for a non-empty accept list not led by the wildcard, whenever some
accepted type is offered, negotiation returns the first accepted type (in the
client-declared order) that is a key of the offered mapping. -/
theorem negotiate_first_client_preference (accepted : List String)
    (mappings : List (String × String)) (dflt : String) (strict : Bool)
    (m : String)
    (hne : accepted ≠ [])
    (hwc : accepted.head? ≠ some "*/*")
    (hm : accepted.find? (fun t => (mappings.lookup t).isSome) = some m) :
    negotiate accepted mappings dflt strict = Except.ok m := by
  have h1 : pyOrderedSet accepted ≠ [] :=
    fun h => hne ((pyOrderedSet_eq_nil_iff accepted).mp h)
  have h2 : ¬(pyOrderedSet accepted).head? = some "*/*" := by
    rw [head?_pyOrderedSet]; exact hwc
  have h3 : ((pyOrderedSet accepted).filter
      (fun t => (mappings.lookup t).isSome)).head? = some m := by
    rw [List.filter_head?, find?_pyOrderedSet, hm]
  have h4 : (pyOrderedSet accepted).filter
      (fun t => (mappings.lookup t).isSome) ≠ [] := by
    intro h; rw [h] at h3; simp at h3
  simp only [negotiate]
  rw [if_neg (not_or.mpr ⟨h1, h2⟩), if_neg h4, List.headD_eq_head?, h3]
  rfl

/-- Witness for C3 with the accept list of the test suite. -/
theorem negotiate_first_client_preference_witness :
    negotiate ["application/unsupported+json", "application/vnd.test+json"]
      [("application/vnd.test+json", "schema-test")] "application/json" false
      = Except.ok "application/vnd.test+json" :=
  negotiate_first_client_preference _ _ _ _ "application/vnd.test+json"
    (by simp) (by simp) (by simp [List.find?, List.lookup])

/-- C4: for a non-empty accept list not led by the wildcard and intersecting
none of the offered keys, negotiation raises `NotAcceptable` (HTTP 406)
exactly when strict mode is on, and falls back to the default media type when
it is off. -/
theorem negotiate_empty_intersection (accepted : List String)
    (mappings : List (String × String)) (dflt : String) (strict : Bool)
    (hne : accepted ≠ [])
    (hwc : accepted.head? ≠ some "*/*")
    (hint : ∀ t ∈ accepted, mappings.lookup t = none) :
    (negotiate accepted mappings dflt strict = Except.error ProducesErr.notAcceptable
      ↔ strict = true) ∧
    (strict = false → negotiate accepted mappings dflt strict = Except.ok dflt) := by
  have h1 : pyOrderedSet accepted ≠ [] :=
    fun h => hne ((pyOrderedSet_eq_nil_iff accepted).mp h)
  have h2 : ¬(pyOrderedSet accepted).head? = some "*/*" := by
    rw [head?_pyOrderedSet]; exact hwc
  have hsup : (pyOrderedSet accepted).filter
      (fun t => (mappings.lookup t).isSome) = [] := by
    rw [List.filter_eq_nil_iff]
    intro t ht
    rw [hint t ((mem_pyOrderedSet t accepted).mp ht)]
    simp
  have hneg : negotiate accepted mappings dflt strict
      = if strict then Except.error ProducesErr.notAcceptable else Except.ok dflt := by
    simp only [negotiate]
    rw [if_neg (not_or.mpr ⟨h1, h2⟩), if_pos hsup]
  rw [hneg]
  cases strict <;> simp

/-- Witness for C4 at a concrete non-intersecting strict request. -/
theorem negotiate_empty_intersection_witness :
    (negotiate ["application/unsupported+json"]
        [("application/vnd.test+json", "schema-test")] "application/json" true
      = Except.error ProducesErr.notAcceptable ↔ true = true) ∧
    (true = false → negotiate ["application/unsupported+json"]
        [("application/vnd.test+json", "schema-test")] "application/json" true
      = Except.ok "application/json") :=
  negotiate_empty_intersection _ _ _ _ (by simp) (by simp)
    (by intro t ht; simp only [List.mem_singleton] at ht; subst ht; simp [List.lookup])

/-- C1 (code evidence): for a schema name with no backing file,
`load_schema` raises `FileNotFoundError` (a clear not-found signal), but
`GET /schemas/unknown` answers HTTP 500 — the exception escapes the view, so
the 404 branch intended for missing schemas is never taken; a file whose
substituted text fails to parse raises `json.JSONDecodeError`. -/
theorem schema_get_missing_file_gives_500 :
    load_schema (fun s => if s = "ok" then some Unit.unit else none) (fun _ => none)
      none (some "http://localhost") "unknown" = Except.error LoadErr.fileNotFound ∧
    schemaApiGet (fun s => if s = "ok" then some Unit.unit else none) (fun _ => false)
      (fun _ => none) none "http://localhost" "unknown" = (500, none) ∧
    (500 : Nat) ≠ 404 ∧
    load_schema (fun s => if s = "ok" then some Unit.unit else none)
      (fun nm => if nm = "bad" then some "notjson" else none)
      none (some "http://localhost") "bad" = Except.error LoadErr.jsonDecodeError := by
  refine ⟨rfl, rfl, by simp, ?_⟩
  simp [load_schema, effectiveBaseUrl, pyReplace, replaceAll, baseUrlToken]

/-- C5: with the default-capacity cache starting empty, loading an existing,
valid schema twice with the same (baseUrl, name) key returns the identical
parsed value both times, the first call performing exactly one file-system
access and the second call none (a cache hit). -/
theorem cached_load_twice_hit {J : Type} (parse : String → Option J)
    (fs : String → Option String) (instanceBase baseUrl : Option String)
    (schemaName text b : String) (j : J)
    (hfs : fs schemaName = some text)
    (hb : effectiveBaseUrl baseUrl instanceBase = some b)
    (hp : parse (pyReplace text baseUrlToken b) = some j) :
    ((cachedLoadSchema parse fs instanceBase ⟨SCHEMA_CACHE_MAX_SIZE, []⟩
        baseUrl schemaName).1 = Except.ok j) ∧
    ((cachedLoadSchema parse fs instanceBase ⟨SCHEMA_CACHE_MAX_SIZE, []⟩
        baseUrl schemaName).2.2 = 1) ∧
    ((cachedLoadSchema parse fs instanceBase
        (cachedLoadSchema parse fs instanceBase ⟨SCHEMA_CACHE_MAX_SIZE, []⟩
          baseUrl schemaName).2.1 baseUrl schemaName).1 = Except.ok j) ∧
    ((cachedLoadSchema parse fs instanceBase
        (cachedLoadSchema parse fs instanceBase ⟨SCHEMA_CACHE_MAX_SIZE, []⟩
          baseUrl schemaName).2.1 baseUrl schemaName).2.2 = 0) := by
  have hload : load_schema parse fs instanceBase baseUrl schemaName = Except.ok j := by
    simp [load_schema, hfs, hb, hp]
  have htake : List.take SCHEMA_CACHE_MAX_SIZE [((baseUrl, schemaName), j)]
      = [((baseUrl, schemaName), j)] :=
    List.take_of_length_le (by simp [SCHEMA_CACHE_MAX_SIZE])
  have hc1 : cachedLoadSchema parse fs instanceBase ⟨SCHEMA_CACHE_MAX_SIZE, []⟩
      baseUrl schemaName
      = (Except.ok j, ⟨SCHEMA_CACHE_MAX_SIZE, [((baseUrl, schemaName), j)]⟩, 1) := by
    simp [cachedLoadSchema, cacheGet, hload, cachePut, htake]
  have hc2 : cachedLoadSchema parse fs instanceBase
      ⟨SCHEMA_CACHE_MAX_SIZE, [((baseUrl, schemaName), j)]⟩ baseUrl schemaName
      = (Except.ok j, ⟨SCHEMA_CACHE_MAX_SIZE, [((baseUrl, schemaName), j)]⟩, 0) := by
    simp [cachedLoadSchema, cacheGet, cachePut, htake]
  rw [hc1]
  exact ⟨rfl, rfl, by rw [hc2], by rw [hc2]⟩

/-- Witness for C5 at a concrete one-file store. -/
theorem cached_load_twice_hit_witness :
    ((cachedLoadSchema (fun s => if s = "n" then some 5 else none)
        (fun nm => if nm = "s" then some "n" else none) none
        ⟨SCHEMA_CACHE_MAX_SIZE, []⟩ (some "http://h") "s").1 = Except.ok 5) ∧
    ((cachedLoadSchema (fun s => if s = "n" then some 5 else none)
        (fun nm => if nm = "s" then some "n" else none) none
        ⟨SCHEMA_CACHE_MAX_SIZE, []⟩ (some "http://h") "s").2.2 = 1) ∧
    ((cachedLoadSchema (fun s => if s = "n" then some 5 else none)
        (fun nm => if nm = "s" then some "n" else none) none
        (cachedLoadSchema (fun s => if s = "n" then some 5 else none)
          (fun nm => if nm = "s" then some "n" else none) none
          ⟨SCHEMA_CACHE_MAX_SIZE, []⟩ (some "http://h") "s").2.1
        (some "http://h") "s").1 = Except.ok 5) ∧
    ((cachedLoadSchema (fun s => if s = "n" then some 5 else none)
        (fun nm => if nm = "s" then some "n" else none) none
        (cachedLoadSchema (fun s => if s = "n" then some 5 else none)
          (fun nm => if nm = "s" then some "n" else none) none
          ⟨SCHEMA_CACHE_MAX_SIZE, []⟩ (some "http://h") "s").2.1
        (some "http://h") "s").2.2 = 0) :=
  cached_load_twice_hit _ _ none (some "http://h") "s" "n" "http://h" 5
    (by simp) (by simp [effectiveBaseUrl])
    (by simp [pyReplace, replaceAll, baseUrlToken])

/-- C6: when the backing file exists and the effective base URL resolves,
loading parses exactly the file text with every occurrence of the
placeholder token replaced by that base URL; a non-empty baseUrl argument is
used as is, while an absent or empty one falls back to the configured
instance base URL. -/
theorem load_schema_substitutes {J : Type} (parse : String → Option J)
    (fs : String → Option String) (instanceBase baseUrl : Option String)
    (schemaName text b c : String)
    (hfs : fs schemaName = some text)
    (hb : effectiveBaseUrl baseUrl instanceBase = some b)
    (hc : c ≠ "") :
    load_schema parse fs instanceBase baseUrl schemaName
      = (match parse (pyReplace text baseUrlToken b) with
         | none => Except.error LoadErr.jsonDecodeError
         | some j => Except.ok j) ∧
    effectiveBaseUrl (some c) instanceBase = some c ∧
    effectiveBaseUrl none instanceBase = instanceBase ∧
    effectiveBaseUrl (some "") instanceBase = instanceBase := by
  refine ⟨?_, ?_, rfl, by simp [effectiveBaseUrl]⟩
  · simp [load_schema, hfs, hb]
  · simp [effectiveBaseUrl, hc]

/-- Witness for C6 on a file whose text contains the placeholder. -/
theorem load_schema_substitutes_witness :
    load_schema (fun s => if s = "xQy" then some 1 else none)
      (fun nm => if nm = "s" then some "x${base_url}y" else none) none (some "Q") "s"
      = Except.ok 1 ∧
    effectiveBaseUrl (some "http://c") none = some "http://c" := by
  have h := load_schema_substitutes (fun s => if s = "xQy" then some 1 else none)
    (fun nm => if nm = "s" then some "x${base_url}y" else none) none (some "Q")
    "s" "x${base_url}y" "Q" "http://c" (by simp) (by simp [effectiveBaseUrl]) (by simp)
  refine ⟨?_, h.2.1⟩
  rw [h.1]
  simp [pyReplace, replaceAll, baseUrlToken]

/-- C10: on an instance constructed without a base_url, a falsy (absent or
empty) baseUrl argument makes the substitution run with None as the
replacement and `load_schema` dies with an uncontrolled `TypeError`, which is
none of the documented not-found or parse failures. -/
theorem load_schema_none_base_typeerror {J : Type} (parse : String → Option J)
    (fs : String → Option String) (baseUrl : Option String) (schemaName text : String)
    (hfs : fs schemaName = some text)
    (hb : baseUrl = none ∨ baseUrl = some "") :
    load_schema parse fs none baseUrl schemaName = Except.error LoadErr.typeError ∧
    LoadErr.typeError ≠ LoadErr.fileNotFound ∧
    LoadErr.typeError ≠ LoadErr.jsonDecodeError := by
  refine ⟨?_, by simp, by simp⟩
  rcases hb with h | h <;> subst h <;> simp [load_schema, hfs, effectiveBaseUrl]

/-- Witness for C10 at a concrete store holding the requested file. -/
theorem load_schema_none_base_typeerror_witness :
    load_schema (fun _ => (none : Option Nat))
      (fun nm => if nm = "s" then some "t" else none) none none "s"
      = Except.error LoadErr.typeError ∧
    LoadErr.typeError ≠ LoadErr.fileNotFound ∧
    LoadErr.typeError ≠ LoadErr.jsonDecodeError :=
  load_schema_none_base_typeerror _ _ none "s" "t" (by simp) (Or.inl rfl)

theorem decodePayload_ne_unsupported {J : Type} (parse : String → Option J)
    (req : PyRequest) :
    decodePayload parse req ≠ Except.error ConsumeErr.unsupportedMediaType := by
  unfold decodePayload
  split
  · split
    · simp
    · split <;> simp
  · split <;> simp

/-- C7: the consumes wrapper fails with UnsupportedMediaType (HTTP 415)
exactly when the declared media type of the request is not a key of the
offered type mapping. -/
theorem consumes_unsupported_iff {J : Type} (parse : String → Option J)
    (validateOk : J → J → Bool) (fs : String → Option String)
    (instanceBase : Option String) (mappings : List (String × String))
    (req : PyRequest) :
    consumesWrapper parse validateOk fs instanceBase mappings req
        = Except.error ConsumeErr.unsupportedMediaType
      ↔ mappings.lookup req.mimetype = none := by
  unfold consumesWrapper
  cases hlk : mappings.lookup req.mimetype with
  | none => simp
  | some schemaName =>
    refine iff_of_false (fun h => ?_) (by simp)
    revert h
    cases hdec : decodePayload parse req with
    | error e =>
      intro h
      simp only [Except.error.injEq] at h
      exact decodePayload_ne_unsupported parse req (by rw [hdec, h])
    | ok data =>
      by_cases hsn : schemaName = ""
      · simp [hsn]
      · simp only [hsn, if_false]
        cases load_schema parse fs instanceBase
            (some (pyOrStr instanceBase req.urlRoot)) schemaName with
        | error e => simp
        | ok sch => cases hv : validateOk data sch <;> simp [hv]

/-- C8: for a supported declared media type, the wrapper decodes the JSON
from the form field named payload when the (lowered) declared type is the
URL-encoded form type and from the raw request body otherwise, and on
success it hands the decoded body together with the declared media type to
the wrapped handler. -/
theorem consumes_decodes_and_exposes {J : Type} (parse : String → Option J)
    (validateOk : J → J → Bool) (fs : String → Option String)
    (instanceBase : Option String) (mappings : List (String × String))
    (req : PyRequest) (schemaName p : String) (d : J)
    (hsup : mappings.lookup req.mimetype = some schemaName)
    (hsrc : (if pyLower req.mimetype = MIME_FORM_URLENCODED
             then req.form.lookup "payload" else some req.bodyData) = some p)
    (hp : parse p = some d)
    (hval : schemaName = "" ∨
      ∃ sch, load_schema parse fs instanceBase
          (some (pyOrStr instanceBase req.urlRoot)) schemaName = Except.ok sch
        ∧ validateOk d sch = true) :
    consumesWrapper parse validateOk fs instanceBase mappings req
      = Except.ok (req.mimetype, d) := by
  have hdec : decodePayload parse req = Except.ok d := by
    unfold decodePayload
    by_cases hform : pyLower req.mimetype = MIME_FORM_URLENCODED
    · rw [if_pos hform] at hsrc
      rw [if_pos hform, hsrc]
      simp [hp]
    · rw [if_neg hform] at hsrc
      rw [if_neg hform, Option.some.inj hsrc]
      simp [hp]
  unfold consumesWrapper
  rw [hsup, hdec]
  by_cases hsn : schemaName = ""
  · simp [hsn]
  · rcases hval with h | ⟨sch, hl, hv⟩
    · exact absurd h hsn
    · simp [hsn, hl, hv]

/-- Witness for C8 on a form-encoded request carrying JSON in the payload
field, offered without a schema to validate against. -/
theorem consumes_decodes_and_exposes_witness :
    consumesWrapper (fun s => if s = "P" then some 3 else none) (fun _ _ => true)
      (fun _ => none) none [("application/x-www-form-urlencoded", "")]
      ⟨"application/x-www-form-urlencoded", [("payload", "P")], "", "http://localhost"⟩
      = Except.ok ("application/x-www-form-urlencoded", 3) :=
  consumes_decodes_and_exposes _ _ _ none _ _ "" "P" 3
    (by simp [List.lookup]) (by decide) (by decide) (Or.inl rfl)

/-- C9 counterexample: the details object of a translated ValidationError
carries the keys schema and "schema-path" — there is no "schemaPath" key —
and the body also always contains a traceback key (null for validation
errors), so the claimed body shape does not match the code. -/
theorem validation_error_details_key :
    (validationErrorHandler ⟨"/", "http://localhost/", "GET"⟩ "err"
        (⟨"Mock Message", 0, ["properties", "mock"]⟩ : SchemaExcInfo Nat)).1.lookup "details"
      = some (JVal.obj [("schema", JVal.jval 0),
          ("schema-path", JVal.s "properties/mock")]) ∧
    (validationErrorHandler ⟨"/", "http://localhost/", "GET"⟩ "err"
        (⟨"Mock Message", 0, ["properties", "mock"]⟩ : SchemaExcInfo Nat)).1.map Prod.fst
      = ["path", "url", "method", "message", "details", "traceback", "status", "code"] ∧
    "schemaPath" ∉ (getErrorDetails
        (⟨"Mock Message", 0, ["properties", "mock"]⟩ : SchemaExcInfo Nat)).map Prod.fst := by
  refine ⟨?_, ?_, ?_⟩ <;>
    simp [validationErrorHandler, asFlaskError, getErrorDetails, joinSlash,
      pyOrStr, List.lookup]

/-- C9 (amended): a ValidationError with a non-empty message is translated
into the JSON body with keys path, url, method, message, details (holding
schema and "schema-path"), traceback (null), status and code, with status
400 and code VALIDATION; a SchemaError yields the same shape with status
500, code SCHEMA_ERROR and the diagnostic trace in the traceback field. -/
theorem error_handlers_shape {J : Type} (ctx : ReqCtx) (errStr tb : String)
    (e : SchemaExcInfo J) (hmsg : e.message ≠ "") :
    validationErrorHandler ctx errStr e
      = ([("path", JVal.s ctx.path), ("url", JVal.s ctx.url),
          ("method", JVal.s ctx.method), ("message", JVal.s e.message),
          ("details", JVal.obj [("schema", JVal.jval e.schema),
            ("schema-path", JVal.s (joinSlash e.schemaPath))]),
          ("traceback", JVal.null), ("status", JVal.num 400),
          ("code", JVal.s "VALIDATION")], 400) ∧
    schemaErrorHandler ctx errStr tb e
      = ([("path", JVal.s ctx.path), ("url", JVal.s ctx.url),
          ("method", JVal.s ctx.method), ("message", JVal.s e.message),
          ("details", JVal.obj [("schema", JVal.jval e.schema),
            ("schema-path", JVal.s (joinSlash e.schemaPath))]),
          ("traceback", JVal.s tb), ("status", JVal.num 500),
          ("code", JVal.s "SCHEMA_ERROR")], 500) := by
  constructor <;>
    simp [validationErrorHandler, schemaErrorHandler, asFlaskError,
      getErrorDetails, pyOrStr, hmsg]

/-- Witness for the amended C9 theorem at the mock error of the test suite. -/
theorem error_handlers_shape_witness :
    validationErrorHandler ⟨"/", "http://localhost/", "GET"⟩ "err"
        (⟨"Mock Message", 7, ["properties", "mock"]⟩ : SchemaExcInfo Nat)
      = ([("path", JVal.s "/"), ("url", JVal.s "http://localhost/"),
          ("method", JVal.s "GET"), ("message", JVal.s "Mock Message"),
          ("details", JVal.obj [("schema", JVal.jval 7),
            ("schema-path", JVal.s (joinSlash ["properties", "mock"]))]),
          ("traceback", JVal.null), ("status", JVal.num 400),
          ("code", JVal.s "VALIDATION")], 400) ∧
    schemaErrorHandler ⟨"/", "http://localhost/", "GET"⟩ "err" "tb"
        (⟨"Mock Message", 7, ["properties", "mock"]⟩ : SchemaExcInfo Nat)
      = ([("path", JVal.s "/"), ("url", JVal.s "http://localhost/"),
          ("method", JVal.s "GET"), ("message", JVal.s "Mock Message"),
          ("details", JVal.obj [("schema", JVal.jval 7),
            ("schema-path", JVal.s (joinSlash ["properties", "mock"]))]),
          ("traceback", JVal.s "tb"), ("status", JVal.num 500),
          ("code", JVal.s "SCHEMA_ERROR")], 500) :=
  error_handlers_shape ⟨"/", "http://localhost/", "GET"⟩ "err" "tb"
    (⟨"Mock Message", 7, ["properties", "mock"]⟩ : SchemaExcInfo Nat) (by simp)
